import Mathlib

/-!
Shallow embedding of the RoboEyes animation state machine from
`src/eye.py` (primary, which uses Python floor division `//`) together
with the few places where `src/gifeye.py` differs and a claim depends on
the difference (`setFramerate`, the one-shot animation completions).

Conventions of the embedding:
* Python integers are unbounded, so every numeric field is `Int`.
* Python `x // 2` is floor division; Lean's `/` on `Int` is Euclidean
  division, which coincides with floor division for positive divisors,
  so `x / 2` is the faithful translation.  For `1000 // fps` with a
  divisor of unknown sign we use `Int.fdiv`.
* `random.randint(lo, hi)` is modelled by `randintM lo hi r`: the host
  injects an entropy value `r`, the sample is `r` reduced into
  `[lo, hi]`, and the call fails (returns `none`, as CPython raises
  `ValueError`) exactly when the range is empty.
* A call to `drawEyes()` (one animation tick) is `tick now r s`, an
  `Option St` because the scheduled-animation blocks can sample from an
  empty random range.  `tickQuiet now s` is the same update for states
  whose autoblinker and idle mode are off; `tick_eq_tickQuiet` proves
  the two agree there.
* The shapes painted on the frame buffer are modelled as the list
  `drawList` of primitives, in source emission order.
-/

/-- Mood constant `DEFAULT = 0` from the source. -/
def DEFAULT : Int := 0

/-- Mood constant `TIRED = 1` from the source. -/
def TIRED : Int := 1

/-- Mood constant `ANGRY = 2` from the source. -/
def ANGRY : Int := 2

/-- Mood constant `HAPPY = 3` from the source. -/
def HAPPY : Int := 3

/-- Background color `BGCOLOR = 0`. -/
def BGCOLOR : Int := 0

/-- Foreground color `MAINCOLOR = 1`. -/
def MAINCOLOR : Int := 1

/-- The animator state: every mutable attribute of the `RoboEyes`
instance that the animation logic reads or writes (the display handle
and the fps limiter timestamp are the only attributes omitted; no
modelled operation touches them). -/
structure St where
  screenWidth : Int
  screenHeight : Int
  frameInterval : Int
  tired : Bool
  angry : Bool
  happy : Bool
  curious : Bool
  cyclops : Bool
  eyeL_open : Bool
  eyeR_open : Bool
  eyeLwidthDefault : Int
  eyeLwidthCurrent : Int
  eyeLwidthNext : Int
  eyeLheightDefault : Int
  eyeLheightCurrent : Int
  eyeLheightNext : Int
  eyeLheightOffset : Int
  eyeLborderRadiusDefault : Int
  eyeLborderRadiusCurrent : Int
  eyeLborderRadiusNext : Int
  eyeRwidthDefault : Int
  eyeRwidthCurrent : Int
  eyeRwidthNext : Int
  eyeRheightDefault : Int
  eyeRheightCurrent : Int
  eyeRheightNext : Int
  eyeRheightOffset : Int
  eyeRborderRadiusDefault : Int
  eyeRborderRadiusCurrent : Int
  eyeRborderRadiusNext : Int
  spaceBetweenDefault : Int
  spaceBetweenCurrent : Int
  spaceBetweenNext : Int
  eyeLxDefault : Int
  eyeLyDefault : Int
  eyeLx : Int
  eyeLy : Int
  eyeLxNext : Int
  eyeLyNext : Int
  eyeRxDefault : Int
  eyeRyDefault : Int
  eyeRx : Int
  eyeRy : Int
  eyeRxNext : Int
  eyeRyNext : Int
  eyelidsHeightMax : Int
  eyelidsTiredHeight : Int
  eyelidsTiredHeightNext : Int
  eyelidsAngryHeight : Int
  eyelidsAngryHeightNext : Int
  eyelidsHappyBottomOffsetMax : Int
  eyelidsHappyBottomOffset : Int
  eyelidsHappyBottomOffsetNext : Int
  hFlicker : Bool
  hFlickerAlternate : Bool
  hFlickerAmplitude : Int
  vFlicker : Bool
  vFlickerAlternate : Bool
  vFlickerAmplitude : Int
  autoblinker : Bool
  blinkInterval : Int
  blinkIntervalVariation : Int
  blinktimer : Int
  idle : Bool
  idleInterval : Int
  idleIntervalVariation : Int
  idleAnimationTimer : Int
  confused : Bool
  confusedAnimationTimer : Int
  confusedAnimationDuration : Int
  confusedToggle : Bool
  laugh : Bool
  laughAnimationTimer : Int
  laughAnimationDuration : Int
  laughToggle : Bool
deriving DecidableEq

/-- The halving tween step used for every paired current/target scalar:
`current = (current + target) // 2` with floor division. -/
def tween (c t : Int) : Int := (c + t) / 2

/-- `tweenIter t n c` is `n` repeated applications of the halving tween
toward the fixed target `t`, starting from `c`. -/
def tweenIter (t : Int) : Nat → Int → Int
  | 0, c => c
  | n + 1, c => tweenIter t n (tween c t)

/-- `RoboEyes.__init__` for a display of the given dimensions
(`src/eye.py` lines 44-116; the position defaults use the literal
`36 + 10 + 36` exactly as the source does). -/
def initState (w h : Int) : St :=
  let lx := (w - (36 + 10 + 36)) / 2
  let ly := (h - 36) / 2
  { screenWidth := w
    screenHeight := h
    frameInterval := 20
    tired := false
    angry := false
    happy := false
    curious := false
    cyclops := false
    eyeL_open := false
    eyeR_open := false
    eyeLwidthDefault := 36
    eyeLwidthCurrent := 36
    eyeLwidthNext := 36
    eyeLheightDefault := 36
    eyeLheightCurrent := 1
    eyeLheightNext := 36
    eyeLheightOffset := 0
    eyeLborderRadiusDefault := 8
    eyeLborderRadiusCurrent := 8
    eyeLborderRadiusNext := 8
    eyeRwidthDefault := 36
    eyeRwidthCurrent := 36
    eyeRwidthNext := 36
    eyeRheightDefault := 36
    eyeRheightCurrent := 1
    eyeRheightNext := 36
    eyeRheightOffset := 0
    eyeRborderRadiusDefault := 8
    eyeRborderRadiusCurrent := 8
    eyeRborderRadiusNext := 8
    spaceBetweenDefault := 10
    spaceBetweenCurrent := 10
    spaceBetweenNext := 10
    eyeLxDefault := lx
    eyeLyDefault := ly
    eyeLx := lx
    eyeLy := ly
    eyeLxNext := lx
    eyeLyNext := ly
    eyeRxDefault := lx + 36 + 10
    eyeRyDefault := ly
    eyeRx := lx + 36 + 10
    eyeRy := ly
    eyeRxNext := lx + 36 + 10
    eyeRyNext := ly
    eyelidsHeightMax := 18
    eyelidsTiredHeight := 0
    eyelidsTiredHeightNext := 0
    eyelidsAngryHeight := 0
    eyelidsAngryHeightNext := 0
    eyelidsHappyBottomOffsetMax := 21
    eyelidsHappyBottomOffset := 0
    eyelidsHappyBottomOffsetNext := 0
    hFlicker := false
    hFlickerAlternate := false
    hFlickerAmplitude := 2
    vFlicker := false
    vFlickerAlternate := false
    vFlickerAmplitude := 10
    autoblinker := false
    blinkInterval := 1
    blinkIntervalVariation := 4
    blinktimer := 0
    idle := false
    idleInterval := 1
    idleIntervalVariation := 3
    idleAnimationTimer := 0
    confused := false
    confusedAnimationTimer := 0
    confusedAnimationDuration := 500
    confusedToggle := true
    laugh := false
    laughAnimationTimer := 0
    laughAnimationDuration := 500
    laughToggle := true }

/-- `setFramerate` from `src/eye.py` line 149: `1000 // max(1, fps)`,
guarded against division by zero. -/
def setFramerate (fps : Int) (s : St) : St :=
  { s with frameInterval := 1000 / max 1 fps }

/-- `setFramerate` from `src/gifeye.py` line 228: `1000 // fps` with no
guard; models the `ZeroDivisionError` at `fps = 0` as `none`. -/
def setFramerateGif (fps : Int) (s : St) : Option St :=
  if fps = 0 then none else some { s with frameInterval := Int.fdiv 1000 fps }

/-- `setWidth` (`src/eye.py` line 152): stores both the target and the
default width of each eye. -/
def setWidth (leftEye rightEye : Int) (s : St) : St :=
  { s with eyeLwidthNext := leftEye, eyeLwidthDefault := leftEye,
           eyeRwidthNext := rightEye, eyeRwidthDefault := rightEye }

/-- `setHeight` (`src/eye.py` line 156). -/
def setHeight (leftEye rightEye : Int) (s : St) : St :=
  { s with eyeLheightNext := leftEye, eyeLheightDefault := leftEye,
           eyeRheightNext := rightEye, eyeRheightDefault := rightEye }

/-- `setBorderradius` (`src/eye.py` line 160). -/
def setBorderradius (leftEye rightEye : Int) (s : St) : St :=
  { s with eyeLborderRadiusNext := leftEye, eyeLborderRadiusDefault := leftEye,
           eyeRborderRadiusNext := rightEye, eyeRborderRadiusDefault := rightEye }

/-- `setSpacebetween` (`src/eye.py` line 164). -/
def setSpacebetween (space : Int) (s : St) : St :=
  { s with spaceBetweenNext := space, spaceBetweenDefault := space }

/-- `setMood` (`src/eye.py` lines 167-171): clears all three flags first
and then sets the one matching the argument, if any. -/
def setMood (mood : Int) (s : St) : St :=
  let s1 := { s with tired := false, angry := false, happy := false }
  if mood = TIRED then { s1 with tired := true }
  else if mood = ANGRY then { s1 with angry := true }
  else if mood = HAPPY then { s1 with happy := true }
  else s1

/-- `getScreenConstraint_X` (`src/eye.py` line 226): the maximal x
position for the left eye; computed with no clamping. -/
def getScreenConstraint_X (s : St) : Int :=
  s.screenWidth - s.eyeLwidthCurrent - s.spaceBetweenCurrent - s.eyeRwidthCurrent

/-- `getScreenConstraint_Y` (`src/eye.py` line 229): the maximal y
position for the left eye; computed with no clamping. -/
def getScreenConstraint_Y (s : St) : Int :=
  s.screenHeight - s.eyeLheightDefault

/-- `setPosition` (`src/eye.py` lines 173-191): the `if/elif` chain over
the compass presets `N = 1`, ..., `NW = 8`, with the `else` branch
centering the gaze (the `DEFAULT` case). -/
def setPosition (position : Int) (s : St) : St :=
  if position = 1 then
    { s with eyeLxNext := getScreenConstraint_X s / 2, eyeLyNext := 0 }
  else if position = 2 then
    { s with eyeLxNext := getScreenConstraint_X s, eyeLyNext := 0 }
  else if position = 3 then
    { s with eyeLxNext := getScreenConstraint_X s, eyeLyNext := getScreenConstraint_Y s / 2 }
  else if position = 4 then
    { s with eyeLxNext := getScreenConstraint_X s, eyeLyNext := getScreenConstraint_Y s }
  else if position = 5 then
    { s with eyeLxNext := getScreenConstraint_X s / 2, eyeLyNext := getScreenConstraint_Y s }
  else if position = 6 then
    { s with eyeLxNext := 0, eyeLyNext := getScreenConstraint_Y s }
  else if position = 7 then
    { s with eyeLxNext := 0, eyeLyNext := getScreenConstraint_Y s / 2 }
  else if position = 8 then
    { s with eyeLxNext := 0, eyeLyNext := 0 }
  else
    { s with eyeLxNext := getScreenConstraint_X s / 2, eyeLyNext := getScreenConstraint_Y s / 2 }

/-- `setCuriosity` (`src/eye.py` line 211). -/
def setCuriosity (curiousBit : Bool) (s : St) : St :=
  { s with curious := curiousBit }

/-- `setCyclops` (`src/eye.py` line 214). -/
def setCyclops (cyclopsBit : Bool) (s : St) : St :=
  { s with cyclops := cyclopsBit }

/-- `setHFlicker` (`src/eye.py` line 217); the amplitude argument
defaults to 2 in the source, callers that rely on the default pass 2
explicitly here. -/
def setHFlicker (flickerBit : Bool) (amplitude : Int) (s : St) : St :=
  { s with hFlicker := flickerBit, hFlickerAmplitude := amplitude }

/-- `setVFlicker` (`src/eye.py` line 221); the amplitude argument
defaults to 10 in the source. -/
def setVFlicker (flickerBit : Bool) (amplitude : Int) (s : St) : St :=
  { s with vFlicker := flickerBit, vFlickerAmplitude := amplitude }

/-- `close` (`src/eye.py` lines 233-239): sets the selected eyes'
height targets to 1 and marks them not open. -/
def closeEyes (left right : Bool) (s : St) : St :=
  let s1 := if left then { s with eyeLheightNext := 1, eyeL_open := false } else s
  if right then { s1 with eyeRheightNext := 1, eyeR_open := false } else s1

/-- `open` (`src/eye.py` lines 241-247): marks the selected eyes open
and restores their height targets to the default.  (Named `openEyes`
because `open` is reserved in Lean.) -/
def openEyes (left right : Bool) (s : St) : St :=
  let s1 := if left then { s with eyeL_open := true, eyeLheightNext := s.eyeLheightDefault } else s
  if right then { s1 with eyeR_open := true, eyeRheightNext := s1.eyeRheightDefault } else s1

/-- `blink` (`src/eye.py` line 249): simply `close(left, right)`. -/
def blink (left right : Bool) (s : St) : St :=
  closeEyes left right s

/-- `anim_confused` (`src/eye.py` line 253). -/
def anim_confused (s : St) : St :=
  { s with confused := true, confusedToggle := true }

/-- `anim_laugh` (`src/eye.py` line 257). -/
def anim_laugh (s : St) : St :=
  { s with laugh := true, laughToggle := true }

/-- Model of `random.randint(lo, hi)` with injected entropy `r`: the
sample is `r` reduced into the closed interval `[lo, hi]`; `none` when
the interval is empty (CPython raises `ValueError` there). -/
def randintM (lo hi r : Int) : Option Int :=
  if lo ≤ hi then some (lo + r % (hi - lo + 1)) else none

/-- The entropy a single `drawEyes()` call may consume: one draw for the
autoblinker reschedule and three for the idle block. -/
structure Rands where
  rBlink : Int
  rIdleX : Int
  rIdleY : Int
  rIdleT : Int
deriving Repr, DecidableEq

/-- `setAutoblinker` (`src/eye.py` lines 193-200): stores the settings
and, when activating, schedules the first blink using a random
variation (the `randint` call fails when `variation` is negative). -/
def setAutoblinker (active : Bool) (interval variation : Int) (now rb : Int) (s : St) : Option St :=
  if active then
    (randintM 0 variation rb).map
      (fun v => { s with autoblinker := active, blinkInterval := interval,
                         blinkIntervalVariation := variation,
                         blinktimer := now + interval * 1000 + v * 1000 })
  else some { s with autoblinker := active, blinkInterval := interval,
                     blinkIntervalVariation := variation }

/-- `setIdleMode` (`src/eye.py` lines 202-209): same pattern as the
autoblinker setter, for the idle repositioning timer. -/
def setIdleMode (active : Bool) (interval variation : Int) (now rt : Int) (s : St) : Option St :=
  if active then
    (randintM 0 variation rt).map
      (fun v => { s with idle := active, idleInterval := interval,
                         idleIntervalVariation := variation,
                         idleAnimationTimer := now + interval * 1000 + v * 1000 })
  else some { s with idle := active, idleInterval := interval,
                     idleIntervalVariation := variation }

/-- The tweening section of `drawEyes` (`src/eye.py` lines 264-300):
curious-gaze offsets, height tween plus vertical re-centering, re-open
rule, width/gap/position/border-radius tweens, and the derivation of
the right eye's target position from the left eye's. -/
def tweenStep (s : St) : St :=
  let lOff : Int :=
    if s.curious then
      if s.eyeLxNext ≤ 10 ∨ (s.cyclops = true ∧ getScreenConstraint_X s - 10 ≤ s.eyeLxNext)
      then 8 else 0
    else 0
  let rOff : Int :=
    if s.curious then
      if s.screenWidth - s.eyeRwidthCurrent - 10 ≤ s.eyeRxNext then 8 else 0
    else 0
  let hL := tween s.eyeLheightCurrent (s.eyeLheightNext + lOff)
  let yL1 := s.eyeLy + (s.eyeLheightDefault - hL) / 2 - lOff / 2
  let hR := tween s.eyeRheightCurrent (s.eyeRheightNext + rOff)
  let yR1 := s.eyeRy + (s.eyeRheightDefault - hR) / 2 - rOff / 2
  let lNext := if s.eyeL_open = true ∧ hL ≤ 1 + lOff then s.eyeLheightDefault else s.eyeLheightNext
  let rNext := if s.eyeR_open = true ∧ hR ≤ 1 + rOff then s.eyeRheightDefault else s.eyeRheightNext
  let wL := tween s.eyeLwidthCurrent s.eyeLwidthNext
  let wR := tween s.eyeRwidthCurrent s.eyeRwidthNext
  let sp := tween s.spaceBetweenCurrent s.spaceBetweenNext
  let xL := tween s.eyeLx s.eyeLxNext
  let yL := tween yL1 s.eyeLyNext
  let rxN := s.eyeLxNext + wL + sp
  let ryN := s.eyeLyNext
  let xR := tween s.eyeRx rxN
  let yR := tween yR1 ryN
  { s with
    eyeLheightOffset := lOff
    eyeRheightOffset := rOff
    eyeLheightCurrent := hL
    eyeRheightCurrent := hR
    eyeLheightNext := lNext
    eyeRheightNext := rNext
    eyeLwidthCurrent := wL
    eyeRwidthCurrent := wR
    spaceBetweenCurrent := sp
    eyeLx := xL
    eyeLy := yL
    eyeRxNext := rxN
    eyeRyNext := ryN
    eyeRx := xR
    eyeRy := yR
    eyeLborderRadiusCurrent := tween s.eyeLborderRadiusCurrent s.eyeLborderRadiusNext
    eyeRborderRadiusCurrent := tween s.eyeRborderRadiusCurrent s.eyeRborderRadiusNext }

/-- The autoblinker block of `drawEyes` (`src/eye.py` lines 303-307):
when armed and due, blink both eyes and reschedule with a random
variation. -/
def autoblinkStep (now rb : Int) (s : St) : Option St :=
  if s.autoblinker = true ∧ s.blinktimer ≤ now then
    match randintM 0 s.blinkIntervalVariation rb with
    | some v =>
        some { blink true true s with
               blinktimer := now + s.blinkInterval * 1000 + v * 1000 }
    | none => none
  else some s

/-- The laugh one-shot block of `drawEyes` (`src/eye.py` lines
309-316): on activation enable vertical flicker at amplitude 5 and
start the timer; after 500 ms disable it — `setVFlicker(False)` whose
omitted amplitude argument defaults to 10. -/
def laughStep (now : Int) (s : St) : St :=
  if s.laugh then
    if s.laughToggle then
      { setVFlicker true 5 s with laughAnimationTimer := now, laughToggle := false }
    else if s.laughAnimationTimer + s.laughAnimationDuration ≤ now then
      { setVFlicker false 10 s with laugh := false }
    else s
  else s

/-- The confused one-shot block of `drawEyes` (`src/eye.py` lines
318-325): horizontal flicker at amplitude 20 on activation; after
500 ms `setHFlicker(False)` resets the amplitude to its default 2. -/
def confusedStep (now : Int) (s : St) : St :=
  if s.confused then
    if s.confusedToggle then
      { setHFlicker true 20 s with confusedAnimationTimer := now, confusedToggle := false }
    else if s.confusedAnimationTimer + s.confusedAnimationDuration ≤ now then
      { setHFlicker false 2 s with confused := false }
    else s
  else s

/-- The laugh block of `src/gifeye.py` (lines 477-485): the completion
passes amplitude 0 explicitly and resets the toggle. -/
def gifLaughStep (now : Int) (s : St) : St :=
  if s.laugh then
    if s.laughToggle then
      { setVFlicker true 5 s with laughAnimationTimer := now, laughToggle := false }
    else if s.laughAnimationTimer + s.laughAnimationDuration ≤ now then
      { setVFlicker false 0 s with laughToggle := true, laugh := false }
    else s
  else s

/-- The confused block of `src/gifeye.py` (lines 488-496): the
completion passes amplitude 0 explicitly and resets the toggle. -/
def gifConfusedStep (now : Int) (s : St) : St :=
  if s.confused then
    if s.confusedToggle then
      { setHFlicker true 20 s with confusedAnimationTimer := now, confusedToggle := false }
    else if s.confusedAnimationTimer + s.confusedAnimationDuration ≤ now then
      { setHFlicker false 0 s with confusedToggle := true, confused := false }
    else s
  else s

/-- The idle block of `drawEyes` (`src/eye.py` lines 327-332): when due,
pick a uniform random target position inside the travel range and
reschedule; either `randint` fails when its range is empty. -/
def idleStep (now rx ry rt : Int) (s : St) : Option St :=
  if s.idle = true ∧ s.idleAnimationTimer ≤ now then
    match randintM 0 (getScreenConstraint_X s) rx,
          randintM 0 (getScreenConstraint_Y s) ry,
          randintM 0 s.idleIntervalVariation rt with
    | some x, some y, some v =>
        some { s with eyeLxNext := x, eyeLyNext := y,
                      idleAnimationTimer := now + s.idleInterval * 1000 + v * 1000 }
    | _, _, _ => none
  else some s

/-- The horizontal flicker block of `drawEyes` (`src/eye.py` lines
335-339): displace both eyes' x by plus or minus the amplitude,
alternating the direction each tick. -/
def hFlickerStep (s : St) : St :=
  if s.hFlicker then
    { s with
      eyeLx := s.eyeLx + (if s.hFlickerAlternate then s.hFlickerAmplitude else -s.hFlickerAmplitude)
      eyeRx := s.eyeRx + (if s.hFlickerAlternate then s.hFlickerAmplitude else -s.hFlickerAmplitude)
      hFlickerAlternate := !s.hFlickerAlternate }
  else s

/-- The vertical flicker block of `drawEyes` (`src/eye.py` lines
341-345). -/
def vFlickerStep (s : St) : St :=
  if s.vFlicker then
    { s with
      eyeLy := s.eyeLy + (if s.vFlickerAlternate then s.vFlickerAmplitude else -s.vFlickerAmplitude)
      eyeRy := s.eyeRy + (if s.vFlickerAlternate then s.vFlickerAmplitude else -s.vFlickerAmplitude)
      vFlickerAlternate := !s.vFlickerAlternate }
  else s

/-- Both flicker blocks in source order. -/
def flickerStep (s : St) : St :=
  vFlickerStep (hFlickerStep s)

/-- The cyclops block of `drawEyes` (`src/eye.py` lines 348-349): zero
the right eye's current width and height and the current gap. -/
def cyclopsStep (s : St) : St :=
  if s.cyclops then
    { s with eyeRwidthCurrent := 0, eyeRheightCurrent := 0, spaceBetweenCurrent := 0 }
  else s

/-- The mood section of `drawEyes` (`src/eye.py` lines 373-425, state
effects only): compute the eyelid overlay targets from the mood flags
(the angry block runs second and overrides the tired block's writes)
and tween each overlay magnitude toward its target. -/
def moodStep (s : St) : St :=
  let tN1 : Int := if s.tired then s.eyeLheightCurrent / 2 else 0
  let aN : Int := if s.angry then s.eyeLheightCurrent / 2 else 0
  let tN : Int := if s.angry then 0 else tN1
  let hN : Int := if s.happy then s.eyeLheightCurrent / 2 else 0
  { s with
    eyelidsTiredHeightNext := tN
    eyelidsAngryHeightNext := aN
    eyelidsHappyBottomOffsetNext := hN
    eyelidsTiredHeight := tween s.eyelidsTiredHeight tN
    eyelidsAngryHeight := tween s.eyelidsAngryHeight aN
    eyelidsHappyBottomOffset := tween s.eyelidsHappyBottomOffset hN }

/-- One `drawEyes()` call (`src/eye.py` lines 261-442) as a state
transition: tweening, the four scheduled-animation blocks in source
order (autoblinker, laugh, confused, idle), flicker displacement,
cyclops collapse, and the eyelid updates performed during drawing.
`none` models an uncaught `ValueError` from an empty `randint` range. -/
def tick (now : Int) (r : Rands) (s : St) : Option St :=
  match autoblinkStep now r.rBlink (tweenStep s) with
  | none => none
  | some s1 =>
    match idleStep now r.rIdleX r.rIdleY r.rIdleT (confusedStep now (laughStep now s1)) with
    | none => none
    | some s2 => some (moodStep (cyclopsStep (flickerStep s2)))

/-- The same tick for states whose autoblinker and idle mode are off; in
that case `tick` consumes no randomness and always succeeds
(`tick_eq_tickQuiet`). -/
def tickQuiet (now : Int) (s : St) : St :=
  moodStep (cyclopsStep (flickerStep (confusedStep now (laughStep now (tweenStep s)))))

/-- Run a sequence of quiet ticks at the given timestamps. -/
def runTicks (ts : List Int) (s : St) : St :=
  ts.foldl (fun a t => tickQuiet t a) s

/-- A draw primitive handed to the renderer: a filled rectangle, a
filled rounded rectangle, or a filled polygon (Pillow coordinate
conventions, colors from the 2-value palette). -/
inductive Shape where
  | rect (x0 y0 x1 y1 color : Int)
  | rrect (x0 y0 x1 y1 radius color : Int)
  | poly (pts : List (Int × Int)) (color : Int)
deriving Repr, DecidableEq

/-- Whether a primitive is painted in the foreground color. -/
def isMainShape : Shape → Bool
  | Shape.rect _ _ _ _ c => c == MAINCOLOR
  | Shape.rrect _ _ _ _ _ c => c == MAINCOLOR
  | Shape.poly _ c => c == MAINCOLOR

/-- The left eye's base rounded rectangle as drawn by `drawEyes`. -/
def leftBaseRect (s : St) : Shape :=
  Shape.rrect s.eyeLx s.eyeLy (s.eyeLx + s.eyeLwidthCurrent)
    (s.eyeLy + s.eyeLheightCurrent) s.eyeLborderRadiusCurrent MAINCOLOR

/-- The right eye's base rounded rectangle as drawn by `drawEyes`. -/
def rightBaseRect (s : St) : Shape :=
  Shape.rrect s.eyeRx s.eyeRy (s.eyeRx + s.eyeRwidthCurrent)
    (s.eyeRy + s.eyeRheightCurrent) s.eyeRborderRadiusCurrent MAINCOLOR

/-- The drawing commands emitted by `drawEyes` (`src/eye.py` lines
352-439), as a function of the post-tick state: the background wipe,
the base eye rectangles (the right one suppressed under cyclops), and
the mood overlay shapes guarded by their magnitudes.  The eyelid
magnitudes referenced here are the ones tweened during the same call,
which are exactly the post-tick values. -/
def drawList (s : St) : List Shape :=
  [Shape.rect 0 0 s.screenWidth s.screenHeight BGCOLOR, leftBaseRect s]
  ++ (if s.cyclops then [] else [rightBaseRect s])
  ++ (if 0 < s.eyelidsTiredHeight then
        if s.cyclops then
          [Shape.poly [(s.eyeLx, s.eyeLy),
                       (s.eyeLx + s.eyeLwidthCurrent / 2, s.eyeLy),
                       (s.eyeLx, s.eyeLy + s.eyelidsTiredHeight)] BGCOLOR,
           Shape.poly [(s.eyeLx + s.eyeLwidthCurrent / 2, s.eyeLy),
                       (s.eyeLx + s.eyeLwidthCurrent, s.eyeLy),
                       (s.eyeLx + s.eyeLwidthCurrent, s.eyeLy + s.eyelidsTiredHeight)] BGCOLOR]
        else
          [Shape.poly [(s.eyeLx, s.eyeLy),
                       (s.eyeLx + s.eyeLwidthCurrent, s.eyeLy),
                       (s.eyeLx, s.eyeLy + s.eyelidsTiredHeight)] BGCOLOR,
           Shape.poly [(s.eyeRx, s.eyeRy),
                       (s.eyeRx + s.eyeRwidthCurrent, s.eyeRy),
                       (s.eyeRx + s.eyeRwidthCurrent, s.eyeRy + s.eyelidsTiredHeight)] BGCOLOR]
      else [])
  ++ (if 0 < s.eyelidsAngryHeight then
        if s.cyclops then
          [Shape.poly [(s.eyeLx, s.eyeLy),
                       (s.eyeLx + s.eyeLwidthCurrent / 2, s.eyeLy),
                       (s.eyeLx + s.eyeLwidthCurrent / 2, s.eyeLy + s.eyelidsAngryHeight)] BGCOLOR,
           Shape.poly [(s.eyeLx + s.eyeLwidthCurrent / 2, s.eyeLy),
                       (s.eyeLx + s.eyeLwidthCurrent, s.eyeLy),
                       (s.eyeLx + s.eyeLwidthCurrent, s.eyeLy + s.eyelidsAngryHeight)] BGCOLOR]
        else
          [Shape.poly [(s.eyeLx, s.eyeLy),
                       (s.eyeLx + s.eyeLwidthCurrent, s.eyeLy),
                       (s.eyeLx + s.eyeLwidthCurrent, s.eyeLy + s.eyelidsAngryHeight)] BGCOLOR,
           Shape.poly [(s.eyeRx, s.eyeRy),
                       (s.eyeRx + s.eyeRwidthCurrent, s.eyeRy),
                       (s.eyeRx, s.eyeRy + s.eyelidsAngryHeight)] BGCOLOR]
      else [])
  ++ (if 0 < s.eyelidsHappyBottomOffset then
        [Shape.rrect (s.eyeLx - 1)
           (s.eyeLy + s.eyeLheightCurrent - s.eyelidsHappyBottomOffset + 1)
           (s.eyeLx + s.eyeLwidthCurrent + 2)
           (s.eyeLy + s.eyeLheightCurrent + s.eyeLheightDefault)
           s.eyeLborderRadiusCurrent BGCOLOR]
        ++ (if s.cyclops then [] else
              [Shape.rrect (s.eyeRx - 1)
                 (s.eyeRy + s.eyeRheightCurrent - s.eyelidsHappyBottomOffset + 1)
                 (s.eyeRx + s.eyeRwidthCurrent + 2)
                 (s.eyeRy + s.eyeRheightCurrent + s.eyeRheightDefault)
                 s.eyeRborderRadiusCurrent BGCOLOR])
      else [])

/-- A demonstrably reachable fully-opened state: construct the animator
for a 128 by 64 display, command `open()`, and run ten quiet ticks (the
left eye's height settles at 35, one below the default 36, because the
halving tween approaches its target from below without attaining it). -/
def reachOpen : St := (tickQuiet 0)^[10] (openEyes true true (initState 128 64))

/-- The state immediately after `close()` on the opened animator. -/
def closedDemo : St := closeEyes true true reachOpen

theorem laughStep_shape (now : Int) (s : St) :
    ∃ a b c d e, laughStep now s =
      { s with vFlicker := a, vFlickerAmplitude := b,
               laughAnimationTimer := c, laughToggle := d, laugh := e } := by
  unfold laughStep setVFlicker
  split
  · split
    · exact ⟨true, 5, now, false, s.laugh, rfl⟩
    · split
      · exact ⟨false, 10, s.laughAnimationTimer, s.laughToggle, false, rfl⟩
      · exact ⟨s.vFlicker, s.vFlickerAmplitude, s.laughAnimationTimer, s.laughToggle, s.laugh, rfl⟩
  · exact ⟨s.vFlicker, s.vFlickerAmplitude, s.laughAnimationTimer, s.laughToggle, s.laugh, rfl⟩

theorem confusedStep_shape (now : Int) (s : St) :
    ∃ a b c d e, confusedStep now s =
      { s with hFlicker := a, hFlickerAmplitude := b,
               confusedAnimationTimer := c, confusedToggle := d, confused := e } := by
  unfold confusedStep setHFlicker
  split
  · split
    · exact ⟨true, 20, now, false, s.confused, rfl⟩
    · split
      · exact ⟨false, 2, s.confusedAnimationTimer, s.confusedToggle, false, rfl⟩
      · exact ⟨s.hFlicker, s.hFlickerAmplitude, s.confusedAnimationTimer, s.confusedToggle,
               s.confused, rfl⟩
  · exact ⟨s.hFlicker, s.hFlickerAmplitude, s.confusedAnimationTimer, s.confusedToggle,
           s.confused, rfl⟩

theorem hFlickerStep_shape (s : St) :
    ∃ a b e, hFlickerStep s =
      { s with eyeLx := a, eyeRx := b, hFlickerAlternate := e } := by
  unfold hFlickerStep
  split
  · exact ⟨_, _, _, rfl⟩
  · exact ⟨s.eyeLx, s.eyeRx, s.hFlickerAlternate, rfl⟩

theorem vFlickerStep_shape (s : St) :
    ∃ c d f, vFlickerStep s =
      { s with eyeLy := c, eyeRy := d, vFlickerAlternate := f } := by
  unfold vFlickerStep
  split
  · exact ⟨_, _, _, rfl⟩
  · exact ⟨s.eyeLy, s.eyeRy, s.vFlickerAlternate, rfl⟩

theorem flickerStep_shape (s : St) :
    ∃ a b c d e f, flickerStep s =
      { s with eyeLx := a, eyeRx := b, eyeLy := c, eyeRy := d,
               hFlickerAlternate := e, vFlickerAlternate := f } := by
  obtain ⟨a, b, e, hh⟩ := hFlickerStep_shape s
  obtain ⟨c, d, f, hv⟩ := vFlickerStep_shape (hFlickerStep s)
  refine ⟨a, b, c, d, e, f, ?_⟩
  rw [flickerStep, hv, hh]

theorem autoblinkStep_shape (now rb : Int) (s s1 : St)
    (h : autoblinkStep now rb s = some s1) :
    ∃ a b c d e, s1 =
      { s with eyeLheightNext := a, eyeRheightNext := b,
               eyeL_open := c, eyeR_open := d, blinktimer := e } := by
  unfold autoblinkStep at h
  split at h
  · revert h
    cases randintM 0 s.blinkIntervalVariation rb with
    | none => intro h; cases h
    | some v =>
        intro h
        refine ⟨1, 1, false, false, now + s.blinkInterval * 1000 + v * 1000, ?_⟩
        injection h with h'
        exact h'.symm
  · refine ⟨s.eyeLheightNext, s.eyeRheightNext, s.eyeL_open, s.eyeR_open, s.blinktimer, ?_⟩
    injection h with h'
    exact h'.symm

theorem idleStep_shape (now rx ry rt : Int) (s s2 : St)
    (h : idleStep now rx ry rt s = some s2) :
    ∃ a b c, s2 =
      { s with eyeLxNext := a, eyeLyNext := b, idleAnimationTimer := c } := by
  unfold idleStep at h
  split at h
  · revert h
    cases randintM 0 (getScreenConstraint_X s) rx with
    | none => intro h; cases h
    | some x =>
      cases randintM 0 (getScreenConstraint_Y s) ry with
      | none => intro h; cases h
      | some y =>
        cases randintM 0 s.idleIntervalVariation rt with
        | none => intro h; cases h
        | some v =>
            intro h
            refine ⟨x, y, now + s.idleInterval * 1000 + v * 1000, ?_⟩
            injection h with h'
            exact h'.symm
  · refine ⟨s.eyeLxNext, s.eyeLyNext, s.idleAnimationTimer, ?_⟩
    injection h with h'
    exact h'.symm

theorem cyclopsStep_shape (s : St) :
    ∃ a b c, cyclopsStep s =
      { s with eyeRwidthCurrent := a, eyeRheightCurrent := b, spaceBetweenCurrent := c } := by
  unfold cyclopsStep
  split
  · exact ⟨0, 0, 0, rfl⟩
  · exact ⟨s.eyeRwidthCurrent, s.eyeRheightCurrent, s.spaceBetweenCurrent, rfl⟩

theorem tick_eq_tickQuiet (now : Int) (r : Rands) (s : St)
    (ha : s.autoblinker = false) (hi : s.idle = false) :
    tick now r s = some (tickQuiet now s) := by
  have h1 : autoblinkStep now r.rBlink (tweenStep s) = some (tweenStep s) := by
    unfold autoblinkStep
    rw [if_neg]
    intro hc
    have : (tweenStep s).autoblinker = s.autoblinker := rfl
    rw [this, ha] at hc
    exact Bool.false_ne_true hc.1
  have hidle : (confusedStep now (laughStep now (tweenStep s))).idle = false := by
    obtain ⟨a, b, c, d, e, hL⟩ := laughStep_shape now (tweenStep s)
    obtain ⟨a', b', c', d', e', hC⟩ := confusedStep_shape now (laughStep now (tweenStep s))
    rw [hC, hL]
    exact hi
  have h2 : idleStep now r.rIdleX r.rIdleY r.rIdleT
      (confusedStep now (laughStep now (tweenStep s)))
      = some (confusedStep now (laughStep now (tweenStep s))) := by
    unfold idleStep
    rw [if_neg]
    intro hc
    rw [hidle] at hc
    exact Bool.false_ne_true hc.1
  unfold tick tickQuiet
  rw [h1]
  dsimp only
  rw [h2]

theorem tween_descend (k : Nat) : ∀ c t : Int, t ≤ c → (c - t).toNat ≤ k →
    ∃ n, tweenIter t n c = t := by
  induction k with
  | zero =>
      intro c t h hk
      have hct : c = t := by omega
      exact ⟨0, by simp [tweenIter, hct]⟩
  | succ k ih =>
      intro c t h hk
      by_cases hc : c = t
      · exact ⟨0, by simp [tweenIter, hc]⟩
      · have h1 : t < c := lt_of_le_of_ne h fun ht => hc ht.symm
        have h2 : t ≤ tween c t ∧ tween c t < c := by unfold tween; omega
        have h3 : (tween c t - t).toNat ≤ k := by omega
        obtain ⟨n, hn⟩ := ih (tween c t) t h2.1 h3
        exact ⟨n + 1, hn⟩

theorem tween_ascend (k : Nat) : ∀ c t : Int, c ≤ t - 1 → (t - 1 - c).toNat ≤ k →
    ∃ n, tweenIter t n c = t - 1 := by
  induction k with
  | zero =>
      intro c t h hk
      have hct : c = t - 1 := by omega
      exact ⟨0, by simp [tweenIter, hct]⟩
  | succ k ih =>
      intro c t h hk
      by_cases hc : c = t - 1
      · exact ⟨0, by simp [tweenIter, hc]⟩
      · have h1 : c < t - 1 := lt_of_le_of_ne h hc
        have h2 : c + 1 ≤ tween c t ∧ tween c t ≤ t - 1 := by unfold tween; omega
        have h3 : (t - 1 - tween c t).toNat ≤ k := by omega
        obtain ⟨n, hn⟩ := ih (tween c t) t h2.2 h3
        exact ⟨n + 1, hn⟩

/-- C1 counterexample: at `(current, target) = (0, 1)` the halving tween
is stuck at 0 forever, so no finite number of iterations ever reaches
the target — the claimed convergence to `current == target` fails. -/
theorem c1_halving_tween_counterexample : ¬ ∃ n, tweenIter 1 n 0 = 1 := by
  rintro ⟨n, hn⟩
  have hz : ∀ m, tweenIter 1 m 0 = 0 := by
    intro m
    induction m with
    | zero => rfl
    | succ k ih => exact ih
  rw [hz n] at hn
  exact absurd hn (by decide)

/-- C1 (amended): for non-negative integers, iterating the halving
tween `current := (current + target) // 2` reaches a fixed point after
finitely many steps, namely `target` itself when starting at or above
the target, and `target - 1` when starting strictly below it. -/
theorem c1_halving_tween_amended (c t : Int) (hc : 0 ≤ c) (ht : 0 ≤ t) :
    ∃ n, tweenIter t n c = if t ≤ c then t else t - 1 := by
  by_cases h : t ≤ c
  · rw [if_pos h]
    exact tween_descend (c - t).toNat c t h le_rfl
  · rw [if_neg h]
    exact tween_ascend (t - 1 - c).toNat c t (by omega) le_rfl

/-- Witness for the amended C1 at the concrete input `(0, 1)`. -/
theorem c1_halving_tween_amended_witness :
    0 ≤ (0 : Int) ∧ 0 ≤ (1 : Int) ∧
      ∃ n, tweenIter 1 n 0 = if (1 : Int) ≤ 0 then 1 else 1 - 1 :=
  ⟨le_refl 0, by decide, c1_halving_tween_amended 0 1 (le_refl 0) (by decide)⟩

/-- C8: the halving tween never overshoots — one update step stays
weakly between the current value and the target, for all integers. -/
theorem c8_tween_no_overshoot (c t : Int) :
    min c t ≤ tween c t ∧ tween c t ≤ max c t := by
  unfold tween
  rcases le_total c t with h | h
  · rw [min_eq_left h, max_eq_right h]
    omega
  · rw [min_eq_right h, max_eq_left h]
    omega
/-- Invariant for a closed left eye: curious mode off, the left eye
marked not-open (as `close()` leaves it), and its height target 1. -/
def closedInv (s : St) : Prop :=
  s.curious = false ∧ s.eyeL_open = false ∧ s.eyeLheightNext = 1

theorem tickQuiet_closedInv (now : Int) (s : St) (h : closedInv s) :
    closedInv (tickQuiet now s) ∧
      (tickQuiet now s).eyeLheightCurrent = (s.eyeLheightCurrent + 1) / 2 := by
  obtain ⟨hcur, hopen, hnext⟩ := h
  obtain ⟨a1, b1, c1, d1, e1, hL⟩ := laughStep_shape now (tweenStep s)
  obtain ⟨a2, b2, c2, d2, e2, hC⟩ := confusedStep_shape now (laughStep now (tweenStep s))
  obtain ⟨a3, b3, c3, d3, e3, f3, hF⟩ :=
    flickerStep_shape (confusedStep now (laughStep now (tweenStep s)))
  obtain ⟨a4, b4, c4, hCy⟩ :=
    cyclopsStep_shape (flickerStep (confusedStep now (laughStep now (tweenStep s))))
  unfold tickQuiet
  rw [hCy, hF, hC, hL]
  unfold closedInv moodStep
  dsimp only
  unfold tweenStep tween
  dsimp only
  rw [hcur, hopen, hnext]
  simp

/-- C2 (code bug): `close()` clears the `eyeL_open` flag, so the
re-open rule of `drawEyes` can never fire afterwards and the eye stays
shut: from a demonstrably reachable fully-opened state (left height 35,
default 36), after `close()` every subsequent tick keeps the left
height at most 18 — it never returns to the default — and from the
sixth tick on the height is exactly 1 forever.  This contradicts the
blink behaviour promised by the claim and by the source's own comment
(`src/gifeye.py` line 372). -/
theorem c2_close_never_reopens :
    reachOpen.eyeLheightCurrent = 35 ∧ reachOpen.eyeLheightDefault = 36 ∧
    ∀ n : Nat,
      (1 ≤ n → ((tickQuiet 0)^[n] closedDemo).eyeLheightCurrent ≤ 18) ∧
      (6 ≤ n → ((tickQuiet 0)^[n] closedDemo).eyeLheightCurrent = 1) := by
  have aux : ∀ m (s : St), closedInv s → 1 ≤ s.eyeLheightCurrent →
      s.eyeLheightCurrent ≤ 18 →
      closedInv ((tickQuiet 0)^[m] s) ∧
        1 ≤ ((tickQuiet 0)^[m] s).eyeLheightCurrent ∧
        ((tickQuiet 0)^[m] s).eyeLheightCurrent ≤ 18 := by
    intro m
    induction m with
    | zero => intro s h h1 h2; exact ⟨h, h1, h2⟩
    | succ k ih =>
        intro s h h1 h2
        have step := tickQuiet_closedInv 0 s h
        rw [Function.iterate_succ_apply]
        exact ih (tickQuiet 0 s) step.1 (by rw [step.2]; omega) (by rw [step.2]; omega)
  have fix : ∀ m (s : St), closedInv s → s.eyeLheightCurrent = 1 →
      ((tickQuiet 0)^[m] s).eyeLheightCurrent = 1 := by
    intro m
    induction m with
    | zero => intro s _ h1; exact h1
    | succ k ih =>
        intro s h h1
        have step := tickQuiet_closedInv 0 s h
        rw [Function.iterate_succ_apply]
        exact ih (tickQuiet 0 s) step.1 (by rw [step.2, h1]; decide)
  refine ⟨by decide, by decide, fun n => ⟨fun h1 => ?_, fun h6 => ?_⟩⟩
  · obtain ⟨m, rfl⟩ : ∃ m, n = m + 1 := ⟨n - 1, by omega⟩
    rw [Function.iterate_succ_apply]
    have hs1 : closedInv (tickQuiet 0 closedDemo) := by
      unfold closedInv
      exact ⟨by decide, by decide, by decide⟩
    exact (aux m (tickQuiet 0 closedDemo) hs1 (by decide) (by decide)).2.2
  · obtain ⟨m, rfl⟩ : ∃ m, n = m + 6 := ⟨n - 6, by omega⟩
    rw [Function.iterate_add_apply]
    have hs6 : closedInv ((tickQuiet 0)^[6] closedDemo) := by
      unfold closedInv
      exact ⟨by decide, by decide, by decide⟩
    exact fix m ((tickQuiet 0)^[6] closedDemo) hs6 (by decide)

/-- Witness for C2 at the concrete tick count 7. -/
theorem c2_close_never_reopens_witness :
    ((tickQuiet 0)^[7] closedDemo).eyeLheightCurrent = 1 :=
  (c2_close_never_reopens.2.2 7).2 (by decide)

theorem autoblinkStep_off (now rb : Int) (s : St) (h : s.autoblinker = false) :
    autoblinkStep now rb s = some s := by
  unfold autoblinkStep
  rw [if_neg]
  intro hc
  rw [h] at hc
  exact Bool.false_ne_true hc.1

theorem idleStep_off (now rx ry rt : Int) (s : St) (h : s.idle = false) :
    idleStep now rx ry rt s = some s := by
  unfold idleStep
  rw [if_neg]
  intro hc
  rw [h] at hc
  exact Bool.false_ne_true hc.1

theorem cyclopsStep_off (s : St) (h : s.cyclops = false) : cyclopsStep s = s := by
  simp [cyclopsStep, h]

/-- C3 counterexample: one completed tick after `setWidth(20, 20)` from
the freshly constructed 128 by 64 animator leaves the right eye's
current x at 65 while the left eye's current x plus the left eye's
current width plus the current gap is 61 — the claimed equality of
current positions fails (only the targets are re-derived each tick;
the currents lag by one averaging step). -/
theorem c3_counterexample :
    tick 0 ⟨0, 0, 0, 0⟩ (setWidth 20 20 (initState 128 64)) =
      some (tickQuiet 0 (setWidth 20 20 (initState 128 64))) ∧
    ¬((tickQuiet 0 (setWidth 20 20 (initState 128 64))).eyeRx =
        (tickQuiet 0 (setWidth 20 20 (initState 128 64))).eyeLx +
        (tickQuiet 0 (setWidth 20 20 (initState 128 64))).eyeLwidthCurrent +
        (tickQuiet 0 (setWidth 20 20 (initState 128 64))).spaceBetweenCurrent) :=
  ⟨by decide, by decide⟩

/-- C3 (amended): after any completed tick with idle mode off and
cyclops mode off, the right eye's *target* position is derived from the
left eye's target position, the left eye's tweened current width and
the tweened current gap (`eyeRxNext = eyeLxNext + eyeLwidthCurrent +
spaceBetweenCurrent`, `eyeRyNext = eyeLyNext`); the right eye's
*current* x only tweens toward this sum and can differ from it after a
tick (see the counterexample).  The right eye receives no independent
position command anywhere in the code. -/
theorem c3_right_eye_derived (now : Int) (r : Rands) (s s' : St)
    (hidle : s.idle = false) (hcyc : s.cyclops = false)
    (htick : tick now r s = some s') :
    s'.eyeRxNext = s'.eyeLxNext + s'.eyeLwidthCurrent + s'.spaceBetweenCurrent ∧
      s'.eyeRyNext = s'.eyeLyNext := by
  unfold tick at htick
  rcases hA : autoblinkStep now r.rBlink (tweenStep s) with _ | s1
  · rw [hA] at htick
    simp at htick
  · rw [hA] at htick
    dsimp only at htick
    obtain ⟨ha1, hb1, hc1, hd1, he1, hS1⟩ := autoblinkStep_shape now r.rBlink (tweenStep s) s1 hA
    obtain ⟨a2, b2, c2, d2, e2, hL⟩ := laughStep_shape now s1
    obtain ⟨a3, b3, c3, d3, e3, hC⟩ := confusedStep_shape now (laughStep now s1)
    obtain ⟨a4, b4, c4, d4, e4, f4, hF⟩ :=
      flickerStep_shape (confusedStep now (laughStep now s1))
    have hX : (confusedStep now (laughStep now s1)).idle = false := by
      rw [hC, hL, hS1]
      exact hidle
    rw [idleStep_off now r.rIdleX r.rIdleY r.rIdleT _ hX] at htick
    dsimp only at htick
    injection htick with h'
    subst h'
    have hYc : (flickerStep (confusedStep now (laughStep now s1))).cyclops = false := by
      rw [hF, hC, hL, hS1]
      exact hcyc
    rw [cyclopsStep_off _ hYc]
    unfold moodStep
    dsimp only
    rw [hF, hC, hL, hS1]
    exact ⟨rfl, rfl⟩

/-- Witness for the amended C3: the first tick of the freshly
constructed animator. -/
theorem c3_right_eye_derived_witness :
    (tickQuiet 0 (initState 128 64)).eyeRxNext =
      (tickQuiet 0 (initState 128 64)).eyeLxNext +
      (tickQuiet 0 (initState 128 64)).eyeLwidthCurrent +
      (tickQuiet 0 (initState 128 64)).spaceBetweenCurrent ∧
    (tickQuiet 0 (initState 128 64)).eyeRyNext =
      (tickQuiet 0 (initState 128 64)).eyeLyNext :=
  c3_right_eye_derived 0 ⟨0, 0, 0, 0⟩ (initState 128 64)
    (tickQuiet 0 (initState 128 64)) (by decide) (by decide) (by decide)

/-- C4 counterexample: `setMood` with the out-of-enumeration value 99
does not retain the prior mood — it clears the previously set `tired`
flag — and `setPosition` with the out-of-enumeration value 42 does not
retain the prior target — it overwrites the NW target x of 0 with the
centered value. -/
theorem c4_counterexample :
    (setMood 1 (initState 128 64)).tired = true ∧
    (setMood 99 (setMood 1 (initState 128 64))).tired = false ∧
    (setPosition 8 (initState 128 64)).eyeLxNext = 0 ∧
    ¬((setPosition 42 (setPosition 8 (initState 128 64))).eyeLxNext =
        (setPosition 8 (initState 128 64)).eyeLxNext) :=
  ⟨by decide, by decide, by decide, by decide⟩

/-- C4 (amended): an out-of-enumeration mood clears all three mood
flags (it acts as mood `none`, not as a no-op), and an out-of-
enumeration position preset falls through to the `else` branch and
centers the gaze targets (it acts as the `DEFAULT` preset, not as a
no-op). -/
theorem c4_invalid_setters (m p : Int) (s : St) :
    (m ≠ 1 ∧ m ≠ 2 ∧ m ≠ 3 →
      (setMood m s).tired = false ∧ (setMood m s).angry = false ∧
        (setMood m s).happy = false) ∧
    (¬(1 ≤ p ∧ p ≤ 8) →
      setPosition p s =
        { s with eyeLxNext := getScreenConstraint_X s / 2,
                 eyeLyNext := getScreenConstraint_Y s / 2 }) := by
  constructor
  · rintro ⟨h1, h2, h3⟩
    unfold setMood TIRED ANGRY HAPPY
    rw [if_neg h1, if_neg h2, if_neg h3]
    exact ⟨rfl, rfl, rfl⟩
  · intro hp
    unfold setPosition
    rw [if_neg (by omega : ¬p = 1), if_neg (by omega : ¬p = 2),
        if_neg (by omega : ¬p = 3), if_neg (by omega : ¬p = 4),
        if_neg (by omega : ¬p = 5), if_neg (by omega : ¬p = 6),
        if_neg (by omega : ¬p = 7), if_neg (by omega : ¬p = 8)]

/-- Witness for the amended C4 at `m = 99`, `p = 42`. -/
theorem c4_invalid_setters_witness :
    ((setMood 99 (initState 128 64)).tired = false ∧
      (setMood 99 (initState 128 64)).angry = false ∧
      (setMood 99 (initState 128 64)).happy = false) ∧
    setPosition 42 (initState 128 64) =
      { initState 128 64 with
        eyeLxNext := getScreenConstraint_X (initState 128 64) / 2,
        eyeLyNext := getScreenConstraint_Y (initState 128 64) / 2 } :=
  ⟨(c4_invalid_setters 99 42 (initState 128 64)).1 (by decide),
   (c4_invalid_setters 99 42 (initState 128 64)).2 (by decide)⟩

theorem tickQuiet_moodless (now : Int) (s : St)
    (h1 : s.tired = false) (h2 : s.angry = false) (h3 : s.happy = false) :
    (tickQuiet now s).tired = false ∧ (tickQuiet now s).angry = false ∧
    (tickQuiet now s).happy = false ∧
    (tickQuiet now s).eyelidsTiredHeight = s.eyelidsTiredHeight / 2 ∧
    (tickQuiet now s).eyelidsAngryHeight = s.eyelidsAngryHeight / 2 ∧
    (tickQuiet now s).eyelidsHappyBottomOffset = s.eyelidsHappyBottomOffset / 2 := by
  obtain ⟨a1, b1, c1, d1, e1, hL⟩ := laughStep_shape now (tweenStep s)
  obtain ⟨a2, b2, c2, d2, e2, hC⟩ := confusedStep_shape now (laughStep now (tweenStep s))
  obtain ⟨a3, b3, c3, d3, e3, f3, hF⟩ :=
    flickerStep_shape (confusedStep now (laughStep now (tweenStep s)))
  obtain ⟨a4, b4, c4, hCy⟩ :=
    cyclopsStep_shape (flickerStep (confusedStep now (laughStep now (tweenStep s))))
  unfold tickQuiet
  rw [hCy, hF, hC, hL]
  unfold moodStep
  dsimp only
  rw [show (tweenStep s).tired = s.tired from rfl,
      show (tweenStep s).angry = s.angry from rfl,
      show (tweenStep s).happy = s.happy from rfl,
      h1, h2, h3]
  simp [tween]
  exact ⟨rfl, rfl, rfl⟩

theorem runTicks_moodless_zero : ∀ (ts : List Int) (s : St),
    s.tired = false → s.angry = false → s.happy = false →
    s.eyelidsTiredHeight = 0 → s.eyelidsAngryHeight = 0 →
    s.eyelidsHappyBottomOffset = 0 →
    (runTicks ts s).eyelidsTiredHeight = 0 ∧
      (runTicks ts s).eyelidsAngryHeight = 0 ∧
      (runTicks ts s).eyelidsHappyBottomOffset = 0 := by
  intro ts
  induction ts with
  | nil => intro s _ _ _ h4 h5 h6; exact ⟨h4, h5, h6⟩
  | cons t ts ih =>
      intro s h1 h2 h3 h4 h5 h6
      have step := tickQuiet_moodless t s h1 h2 h3
      exact ih (tickQuiet t s) step.1 step.2.1 step.2.2.1
        (by rw [step.2.2.2.1, h4]; decide)
        (by rw [step.2.2.2.2.1, h5]; decide)
        (by rw [step.2.2.2.2.2, h6]; decide)

theorem runTicks_moodless_converge : ∀ (k : Nat) (s : St),
    s.tired = false → s.angry = false → s.happy = false →
    0 ≤ s.eyelidsTiredHeight → 0 ≤ s.eyelidsAngryHeight →
    0 ≤ s.eyelidsHappyBottomOffset →
    (s.eyelidsTiredHeight + s.eyelidsAngryHeight + s.eyelidsHappyBottomOffset).toNat ≤ k →
    ∀ ts : List Int, k ≤ ts.length →
      (runTicks ts s).eyelidsTiredHeight = 0 ∧
        (runTicks ts s).eyelidsAngryHeight = 0 ∧
        (runTicks ts s).eyelidsHappyBottomOffset = 0 := by
  intro k
  induction k with
  | zero =>
      intro s h1 h2 h3 n1 n2 n3 hk ts _
      exact runTicks_moodless_zero ts s h1 h2 h3 (by omega) (by omega) (by omega)
  | succ k ih =>
      intro s h1 h2 h3 n1 n2 n3 hk ts hlen
      cases ts with
      | nil => exact absurd hlen (by simp)
      | cons t ts' =>
          have step := tickQuiet_moodless t s h1 h2 h3
          have hlen' : k ≤ ts'.length := by
            simp only [List.length_cons] at hlen
            omega
          exact ih (tickQuiet t s) step.1 step.2.1 step.2.2.1
            (by rw [step.2.2.2.1]; omega)
            (by rw [step.2.2.2.2.1]; omega)
            (by rw [step.2.2.2.2.2]; omega)
            (by rw [step.2.2.2.1, step.2.2.2.2.1, step.2.2.2.2.2]; omega)
            ts' hlen'

/-- C5 counterexample: the tired and angry eyelid overlay *current*
magnitudes are simultaneously nonzero in a state reachable by
`setMood` calls and ticks alone — set tired, tick once (tired overlay
4), switch to angry, tick once: the tired overlay is still 2 while the
angry overlay is already 6. -/
theorem c5_counterexample :
    0 < (tickQuiet 0 (setMood 2 (tickQuiet 0 (setMood 1 (initState 128 64))))).eyelidsTiredHeight ∧
    0 < (tickQuiet 0 (setMood 2 (tickQuiet 0 (setMood 1 (initState 128 64))))).eyelidsAngryHeight :=
  ⟨by decide, by decide⟩

/-- C5 (amended): after every completed tick the tired and angry
overlay *target* magnitudes are never both nonzero (the current
magnitudes can briefly overlap while one decays, see counterexample);
and from any state with all mood flags cleared (as `setMood(happy)`
followed by `setMood(none)` leaves them) and non-negative overlay
magnitudes, all three overlay current magnitudes reach exactly 0 after
sufficiently many ticks. -/
theorem c5_overlays :
    (∀ (now : Int) (r : Rands) (s s' : St), tick now r s = some s' →
        s'.eyelidsTiredHeightNext = 0 ∨ s'.eyelidsAngryHeightNext = 0) ∧
    (∀ s : St, s.tired = false → s.angry = false → s.happy = false →
        0 ≤ s.eyelidsTiredHeight → 0 ≤ s.eyelidsAngryHeight →
        0 ≤ s.eyelidsHappyBottomOffset →
        ∃ N, ∀ ts : List Int, N ≤ ts.length →
          (runTicks ts s).eyelidsTiredHeight = 0 ∧
            (runTicks ts s).eyelidsAngryHeight = 0 ∧
            (runTicks ts s).eyelidsHappyBottomOffset = 0) := by
  constructor
  · intro now r s s' htick
    unfold tick at htick
    rcases hA : autoblinkStep now r.rBlink (tweenStep s) with _ | s1
    · rw [hA] at htick
      simp at htick
    · rw [hA] at htick
      dsimp only at htick
      rcases hI : idleStep now r.rIdleX r.rIdleY r.rIdleT
          (confusedStep now (laughStep now s1)) with _ | s2
      · rw [hI] at htick
        simp at htick
      · rw [hI] at htick
        dsimp only at htick
        injection htick with h'
        subst h'
        unfold moodStep
        dsimp only
        by_cases hang : (cyclopsStep (flickerStep s2)).angry = true
        · left
          rw [if_pos hang]
        · right
          rw [if_neg hang]
  · intro s h1 h2 h3 n1 n2 n3
    exact ⟨(s.eyelidsTiredHeight + s.eyelidsAngryHeight + s.eyelidsHappyBottomOffset).toNat,
      fun ts hlen =>
        runTicks_moodless_converge _ s h1 h2 h3 n1 n2 n3 le_rfl ts hlen⟩

/-- Witness for the amended C5: the first tick of the fresh animator,
and convergence of the overlay magnitudes from the fresh animator. -/
theorem c5_overlays_witness :
    ((tickQuiet 0 (initState 128 64)).eyelidsTiredHeightNext = 0 ∨
      (tickQuiet 0 (initState 128 64)).eyelidsAngryHeightNext = 0) ∧
    ∃ N, ∀ ts : List Int, N ≤ ts.length →
      (runTicks ts (initState 128 64)).eyelidsTiredHeight = 0 ∧
        (runTicks ts (initState 128 64)).eyelidsAngryHeight = 0 ∧
        (runTicks ts (initState 128 64)).eyelidsHappyBottomOffset = 0 :=
  ⟨c5_overlays.1 0 ⟨0, 0, 0, 0⟩ (initState 128 64)
      (tickQuiet 0 (initState 128 64)) (by decide),
   c5_overlays.2 (initState 128 64) (by decide) (by decide) (by decide)
      (by decide) (by decide) (by decide)⟩

/-- C6 counterexample: the travel-range getters are not clamped — in a
reachable state (construct for 128 by 64, `setWidth(200, 200)`, one
tick) the x range is negative, and after `setHeight(100, 100)` the y
range is negative. -/
theorem c6_counterexample :
    getScreenConstraint_X (tickQuiet 0 (setWidth 200 200 (initState 128 64))) < 0 ∧
    getScreenConstraint_Y (setHeight 100 100 (initState 128 64)) < 0 :=
  ⟨by decide, by decide⟩

/-- C6 (amended): the getters compute exactly the claimed differences
but with NO clamping; they are non-negative precisely on states where
the current widths plus gap fit the screen width (resp. the default
left height fits the screen height), and go negative otherwise. -/
theorem c6_travel_range (s : St) :
    (s.eyeLwidthCurrent + s.spaceBetweenCurrent + s.eyeRwidthCurrent ≤ s.screenWidth →
      0 ≤ getScreenConstraint_X s) ∧
    (s.eyeLheightDefault ≤ s.screenHeight → 0 ≤ getScreenConstraint_Y s) := by
  unfold getScreenConstraint_X getScreenConstraint_Y
  constructor <;> (intro h; omega)

/-- Witness for the amended C6 at the fresh 128 by 64 animator. -/
theorem c6_travel_range_witness :
    0 ≤ getScreenConstraint_X (initState 128 64) ∧
    0 ≤ getScreenConstraint_Y (initState 128 64) :=
  ⟨(c6_travel_range (initState 128 64)).1 (by decide),
   (c6_travel_range (initState 128 64)).2 (by decide)⟩

theorem cyclopsStep_on (s : St) (h : s.cyclops = true) :
    cyclopsStep s =
      { s with eyeRwidthCurrent := 0, eyeRheightCurrent := 0, spaceBetweenCurrent := 0 } := by
  simp [cyclopsStep, h]

theorem drawList_filter_main (s : St) (h : s.cyclops = true) :
    (drawList s).filter isMainShape = [leftBaseRect s] := by
  unfold drawList
  rw [h]
  by_cases ht : 0 < s.eyelidsTiredHeight <;>
    by_cases ha : 0 < s.eyelidsAngryHeight <;>
      by_cases hh : 0 < s.eyelidsHappyBottomOffset <;>
        simp [ht, ha, hh, isMainShape, leftBaseRect, rightBaseRect, MAINCOLOR, BGCOLOR]

/-- C9 counterexample: the cyclops zeroing is persisted state, not a
drawing-only effect — before the tick the right eye's current width is
36; a tick under cyclops leaves it 0 in the post-tick state (the same
tick without cyclops leaves 36); and after switching cyclops off the
next tick draws the right eye with width 18, not 36: the zero carried
beyond the cyclops tick's drawing. -/
theorem c9_counterexample :
    (setCyclops true (initState 128 64)).eyeRwidthCurrent = 36 ∧
    (tickQuiet 0 (setCyclops true (initState 128 64))).eyeRwidthCurrent = 0 ∧
    (tickQuiet 0 (initState 128 64)).eyeRwidthCurrent = 36 ∧
    (tickQuiet 0 (setCyclops false
        (tickQuiet 0 (setCyclops true (initState 128 64))))).eyeRwidthCurrent = 18 :=
  ⟨by decide, by decide, by decide, by decide⟩

/-- C9 (amended): a tick under cyclops mode zeroes the right eye's
current width and height and the current gap *as persisted state* (the
zeroes survive into the next tick, see the counterexample), leaves the
width and gap targets untouched — and the height target too when no
blink rewrites it this tick (right eye not marked open, autoblinker
off) — and emits no right-eye base rectangle: the only foreground
shape of the frame is the left eye's base rectangle. -/
theorem c9_cyclops (now : Int) (r : Rands) (s s' : St)
    (hcyc : s.cyclops = true) (hopen : s.eyeR_open = false)
    (hauto : s.autoblinker = false) (htick : tick now r s = some s') :
    s'.eyeRwidthCurrent = 0 ∧ s'.eyeRheightCurrent = 0 ∧ s'.spaceBetweenCurrent = 0 ∧
    s'.eyeRwidthNext = s.eyeRwidthNext ∧ s'.eyeRheightNext = s.eyeRheightNext ∧
    s'.spaceBetweenNext = s.spaceBetweenNext ∧
    (drawList s').filter isMainShape = [leftBaseRect s'] := by
  unfold tick at htick
  rw [autoblinkStep_off now r.rBlink (tweenStep s) hauto] at htick
  dsimp only at htick
  obtain ⟨a2, b2, c2, d2, e2, hL⟩ := laughStep_shape now (tweenStep s)
  obtain ⟨a3, b3, c3, d3, e3, hC⟩ := confusedStep_shape now (laughStep now (tweenStep s))
  rcases hI : idleStep now r.rIdleX r.rIdleY r.rIdleT
      (confusedStep now (laughStep now (tweenStep s))) with _ | s2
  · rw [hI] at htick
    simp at htick
  · rw [hI] at htick
    dsimp only at htick
    injection htick with h'
    subst h'
    obtain ⟨x2, y2, t2, hS2⟩ := idleStep_shape now r.rIdleX r.rIdleY r.rIdleT
        (confusedStep now (laughStep now (tweenStep s))) s2 hI
    obtain ⟨a4, b4, c4, d4, e4, f4, hF⟩ := flickerStep_shape s2
    have hc2 : (flickerStep s2).cyclops = true := by
      rw [hF, hS2, hC, hL]
      exact hcyc
    rw [cyclopsStep_on _ hc2]
    unfold moodStep
    dsimp only
    refine ⟨rfl, rfl, rfl, ?_, ?_, ?_, drawList_filter_main _ hc2⟩
    · rw [hF, hS2, hC, hL]
      rfl
    · rw [hF, hS2, hC, hL]
      show (tweenStep s).eyeRheightNext = s.eyeRheightNext
      unfold tweenStep
      dsimp only
      rw [hopen]
      simp
    · rw [hF, hS2, hC, hL]
      rfl

/-- Witness for the amended C9: one tick under cyclops from the fresh
animator with cyclops enabled. -/
theorem c9_cyclops_witness :
    (tickQuiet 0 (setCyclops true (initState 128 64))).eyeRwidthCurrent = 0 ∧
    (tickQuiet 0 (setCyclops true (initState 128 64))).eyeRheightCurrent = 0 ∧
    (tickQuiet 0 (setCyclops true (initState 128 64))).spaceBetweenCurrent = 0 ∧
    (tickQuiet 0 (setCyclops true (initState 128 64))).eyeRwidthNext =
      (setCyclops true (initState 128 64)).eyeRwidthNext ∧
    (tickQuiet 0 (setCyclops true (initState 128 64))).eyeRheightNext =
      (setCyclops true (initState 128 64)).eyeRheightNext ∧
    (tickQuiet 0 (setCyclops true (initState 128 64))).spaceBetweenNext =
      (setCyclops true (initState 128 64)).spaceBetweenNext ∧
    (drawList (tickQuiet 0 (setCyclops true (initState 128 64)))).filter isMainShape =
      [leftBaseRect (tickQuiet 0 (setCyclops true (initState 128 64)))] :=
  c9_cyclops 0 ⟨0, 0, 0, 0⟩ (setCyclops true (initState 128 64))
    (tickQuiet 0 (setCyclops true (initState 128 64)))
    (by decide) (by decide) (by decide) (by decide)

theorem laughStep_complete (now : Int) (s : St) (h1 : s.laugh = true)
    (h2 : s.laughToggle = false)
    (h3 : s.laughAnimationTimer + s.laughAnimationDuration ≤ now) :
    laughStep now s = { s with vFlicker := false, vFlickerAmplitude := 10, laugh := false } := by
  unfold laughStep setVFlicker
  rw [if_pos h1, if_neg (by simp [h2]), if_pos h3]

theorem confusedStep_complete (now : Int) (s : St) (h1 : s.confused = true)
    (h2 : s.confusedToggle = false)
    (h3 : s.confusedAnimationTimer + s.confusedAnimationDuration ≤ now) :
    confusedStep now s = { s with hFlicker := false, hFlickerAmplitude := 2, confused := false } := by
  unfold confusedStep setHFlicker
  rw [if_pos h1, if_neg (by simp [h2]), if_pos h3]

/-- C10 counterexample: a vertical flicker amplitude of 10 configured
via `setVFlicker` before triggering the laugh one-shot DOES survive the
one-shot's end in `src/eye.py` (the completion resets the amplitude to
the default-argument value 10), so the universally quantified claim
fails at amplitude 10. -/
theorem c10_counterexample :
    (setVFlicker false 10 (initState 128 64)).vFlickerAmplitude = 10 ∧
    (tickQuiet 600 (tickQuiet 0 (anim_laugh
        (setVFlicker false 10 (initState 128 64))))).laugh = false ∧
    (tickQuiet 600 (tickQuiet 0 (anim_laugh
        (setVFlicker false 10 (initState 128 64))))).vFlickerAmplitude = 10 :=
  ⟨by decide, by decide, by decide⟩

theorem tickTail_keep (s2 : St) :
    (moodStep (cyclopsStep (flickerStep s2))).vFlicker = s2.vFlicker ∧
    (moodStep (cyclopsStep (flickerStep s2))).vFlickerAmplitude = s2.vFlickerAmplitude ∧
    (moodStep (cyclopsStep (flickerStep s2))).laugh = s2.laugh ∧
    (moodStep (cyclopsStep (flickerStep s2))).hFlicker = s2.hFlicker ∧
    (moodStep (cyclopsStep (flickerStep s2))).hFlickerAmplitude = s2.hFlickerAmplitude ∧
    (moodStep (cyclopsStep (flickerStep s2))).confused = s2.confused := by
  obtain ⟨a, b, c, d, e, f, hF⟩ := flickerStep_shape s2
  obtain ⟨w, g, p, hCy⟩ := cyclopsStep_shape (flickerStep s2)
  rw [hCy, hF]
  exact ⟨rfl, rfl, rfl, rfl, rfl, rfl⟩

theorem confusedStep_keepV (now : Int) (s : St) :
    (confusedStep now s).vFlicker = s.vFlicker ∧
    (confusedStep now s).vFlickerAmplitude = s.vFlickerAmplitude ∧
    (confusedStep now s).laugh = s.laugh := by
  obtain ⟨a, b, c, d, e, hC⟩ := confusedStep_shape now s
  rw [hC]
  exact ⟨rfl, rfl, rfl⟩

theorem laughStep_keepH (now : Int) (s : St) :
    (laughStep now s).hFlicker = s.hFlicker ∧
    (laughStep now s).hFlickerAmplitude = s.hFlickerAmplitude ∧
    (laughStep now s).confused = s.confused := by
  obtain ⟨a, b, c, d, e, hL⟩ := laughStep_shape now s
  rw [hL]
  exact ⟨rfl, rfl, rfl⟩

/-- C10 (amended): completing a laugh or confused one-shot overwrites
the flicker amplitude with a fixed reset value, regardless of the
value the caller configured: in `src/eye.py` the completion calls
`setVFlicker(False)` and `setHFlicker(False)`, whose default arguments
reset the amplitudes to 10 and 2 respectively; in `src/gifeye.py` the
completion passes amplitude 0.  Hence a configured amplitude survives
the one-shot's end only when it happens to equal that reset value. -/
theorem c10_flicker_reset (now : Int) (r : Rands) (s s' : St) :
    (s.laugh = true → s.laughToggle = false →
      s.laughAnimationTimer + s.laughAnimationDuration ≤ now →
      tick now r s = some s' →
      s'.vFlicker = false ∧ s'.vFlickerAmplitude = 10 ∧ s'.laugh = false) ∧
    (s.confused = true → s.confusedToggle = false →
      s.confusedAnimationTimer + s.confusedAnimationDuration ≤ now →
      tick now r s = some s' →
      s'.hFlicker = false ∧ s'.hFlickerAmplitude = 2 ∧ s'.confused = false) ∧
    (s.laugh = true → s.laughToggle = false →
      s.laughAnimationTimer + s.laughAnimationDuration ≤ now →
      (gifLaughStep now s).vFlicker = false ∧
        (gifLaughStep now s).vFlickerAmplitude = 0 ∧ (gifLaughStep now s).laugh = false) ∧
    (s.confused = true → s.confusedToggle = false →
      s.confusedAnimationTimer + s.confusedAnimationDuration ≤ now →
      (gifConfusedStep now s).hFlicker = false ∧
        (gifConfusedStep now s).hFlickerAmplitude = 0 ∧
        (gifConfusedStep now s).confused = false) := by
  refine ⟨?_, ?_, ?_, ?_⟩
  · intro h1 h2 h3 htick
    unfold tick at htick
    rcases hA : autoblinkStep now r.rBlink (tweenStep s) with _ | s1
    · rw [hA] at htick
      simp at htick
    · rw [hA] at htick
      dsimp only at htick
      obtain ⟨ha1, hb1, hc1, hd1, he1, hS1⟩ :=
        autoblinkStep_shape now r.rBlink (tweenStep s) s1 hA
      have hl : laughStep now s1 =
          { s1 with vFlicker := false, vFlickerAmplitude := 10, laugh := false } := by
        refine laughStep_complete now s1 ?_ ?_ ?_
        · rw [hS1]; exact h1
        · rw [hS1]; exact h2
        · rw [hS1]; exact h3
      rcases hI : idleStep now r.rIdleX r.rIdleY r.rIdleT
          (confusedStep now (laughStep now s1)) with _ | s2
      · rw [hI] at htick
        simp at htick
      · rw [hI] at htick
        dsimp only at htick
        injection htick with h'
        subst h'
        obtain ⟨x2, y2, t2, hS2⟩ := idleStep_shape now r.rIdleX r.rIdleY r.rIdleT
            (confusedStep now (laughStep now s1)) s2 hI
        have hs2 : s2.vFlicker = false ∧ s2.vFlickerAmplitude = 10 ∧ s2.laugh = false := by
          rw [hS2]
          refine ⟨?_, ?_, ?_⟩
          · show (confusedStep now (laughStep now s1)).vFlicker = false
            rw [(confusedStep_keepV now (laughStep now s1)).1, hl]
          · show (confusedStep now (laughStep now s1)).vFlickerAmplitude = 10
            rw [(confusedStep_keepV now (laughStep now s1)).2.1, hl]
          · show (confusedStep now (laughStep now s1)).laugh = false
            rw [(confusedStep_keepV now (laughStep now s1)).2.2, hl]
        have hT := tickTail_keep s2
        exact ⟨hT.1.trans hs2.1, (hT.2.1).trans hs2.2.1, (hT.2.2.1).trans hs2.2.2⟩
  · intro h1 h2 h3 htick
    unfold tick at htick
    rcases hA : autoblinkStep now r.rBlink (tweenStep s) with _ | s1
    · rw [hA] at htick
      simp at htick
    · rw [hA] at htick
      dsimp only at htick
      obtain ⟨ha1, hb1, hc1, hd1, he1, hS1⟩ :=
        autoblinkStep_shape now r.rBlink (tweenStep s) s1 hA
      have hcf : confusedStep now (laughStep now s1) =
          { laughStep now s1 with hFlicker := false, hFlickerAmplitude := 2,
                                  confused := false } := by
        refine confusedStep_complete now (laughStep now s1) ?_ ?_ ?_
        · rw [(laughStep_keepH now s1).2.2, hS1]; exact h1
        · show (laughStep now s1).confusedToggle = false
          obtain ⟨a, b, c, d, e, hL⟩ := laughStep_shape now s1
          rw [hL, hS1]; exact h2
        · show (laughStep now s1).confusedAnimationTimer +
              (laughStep now s1).confusedAnimationDuration ≤ now
          obtain ⟨a, b, c, d, e, hL⟩ := laughStep_shape now s1
          rw [hL, hS1]; exact h3
      rcases hI : idleStep now r.rIdleX r.rIdleY r.rIdleT
          (confusedStep now (laughStep now s1)) with _ | s2
      · rw [hI] at htick
        simp at htick
      · rw [hI] at htick
        dsimp only at htick
        injection htick with h'
        subst h'
        obtain ⟨x2, y2, t2, hS2⟩ := idleStep_shape now r.rIdleX r.rIdleY r.rIdleT
            (confusedStep now (laughStep now s1)) s2 hI
        have hs2 : s2.hFlicker = false ∧ s2.hFlickerAmplitude = 2 ∧ s2.confused = false := by
          rw [hS2]
          refine ⟨?_, ?_, ?_⟩
          · show (confusedStep now (laughStep now s1)).hFlicker = false
            rw [hcf]
          · show (confusedStep now (laughStep now s1)).hFlickerAmplitude = 2
            rw [hcf]
          · show (confusedStep now (laughStep now s1)).confused = false
            rw [hcf]
        have hT := tickTail_keep s2
        exact ⟨(hT.2.2.2.1).trans hs2.1, (hT.2.2.2.2.1).trans hs2.2.1,
               (hT.2.2.2.2.2).trans hs2.2.2⟩
  · intro h1 h2 h3
    unfold gifLaughStep setVFlicker
    rw [if_pos h1, if_neg (by simp [h2]), if_pos h3]
    exact ⟨rfl, rfl, rfl⟩
  · intro h1 h2 h3
    unfold gifConfusedStep setHFlicker
    rw [if_pos h1, if_neg (by simp [h2]), if_pos h3]
    exact ⟨rfl, rfl, rfl⟩

/-- Witness for the amended C10: configure vertical amplitude 7, start
the laugh one-shot (one tick), complete it at 600 ms — the persisted
amplitude is the reset value 10 in the `src/eye.py` model and 0 in the
`src/gifeye.py` completion, not the configured 7. -/
theorem c10_flicker_reset_witness :
    ((tickQuiet 600 (tickQuiet 0 (anim_laugh
        (setVFlicker false 7 (initState 128 64))))).vFlicker = false ∧
      (tickQuiet 600 (tickQuiet 0 (anim_laugh
        (setVFlicker false 7 (initState 128 64))))).vFlickerAmplitude = 10 ∧
      (tickQuiet 600 (tickQuiet 0 (anim_laugh
        (setVFlicker false 7 (initState 128 64))))).laugh = false) ∧
    ((gifLaughStep 600 (tickQuiet 0 (anim_laugh
        (setVFlicker false 7 (initState 128 64))))).vFlicker = false ∧
      (gifLaughStep 600 (tickQuiet 0 (anim_laugh
        (setVFlicker false 7 (initState 128 64))))).vFlickerAmplitude = 0 ∧
      (gifLaughStep 600 (tickQuiet 0 (anim_laugh
        (setVFlicker false 7 (initState 128 64))))).laugh = false) :=
  ⟨(c10_flicker_reset 600 ⟨0, 0, 0, 0⟩
      (tickQuiet 0 (anim_laugh (setVFlicker false 7 (initState 128 64))))
      (tickQuiet 600 (tickQuiet 0 (anim_laugh
        (setVFlicker false 7 (initState 128 64)))))).1
      (by decide) (by decide) (by decide) (by decide),
   (c10_flicker_reset 600 ⟨0, 0, 0, 0⟩
      (tickQuiet 0 (anim_laugh (setVFlicker false 7 (initState 128 64))))
      (tickQuiet 600 (tickQuiet 0 (anim_laugh
        (setVFlicker false 7 (initState 128 64)))))).2.2.1
      (by decide) (by decide) (by decide)⟩

theorem randintM_isSome (lo hi r : Int) : (randintM lo hi r).isSome ↔ lo ≤ hi := by
  unfold randintM
  split <;> simp_all

theorem autoblinkStep_total (now rb : Int) (s : St)
    (h : 0 ≤ s.blinkIntervalVariation) :
    ∃ s1, autoblinkStep now rb s = some s1 := by
  unfold autoblinkStep
  split
  · unfold randintM
    rw [if_pos h]
    exact ⟨_, rfl⟩
  · exact ⟨s, rfl⟩

theorem idleStep_total (now rx ry rt : Int) (s : St)
    (h1 : 0 ≤ getScreenConstraint_X s) (h2 : 0 ≤ getScreenConstraint_Y s)
    (h3 : 0 ≤ s.idleIntervalVariation) :
    ∃ s2, idleStep now rx ry rt s = some s2 := by
  unfold idleStep
  split
  · unfold randintM
    rw [if_pos h1, if_pos h2, if_pos h3]
    exact ⟨_, rfl⟩
  · exact ⟨s, rfl⟩

theorem laughStep_sched (now : Int) (s : St) :
    getScreenConstraint_X (laughStep now s) = getScreenConstraint_X s ∧
    getScreenConstraint_Y (laughStep now s) = getScreenConstraint_Y s ∧
    (laughStep now s).idleIntervalVariation = s.idleIntervalVariation := by
  obtain ⟨a, b, c, d, e, hL⟩ := laughStep_shape now s
  rw [hL]
  exact ⟨rfl, rfl, rfl⟩

theorem confusedStep_sched (now : Int) (s : St) :
    getScreenConstraint_X (confusedStep now s) = getScreenConstraint_X s ∧
    getScreenConstraint_Y (confusedStep now s) = getScreenConstraint_Y s ∧
    (confusedStep now s).idleIntervalVariation = s.idleIntervalVariation := by
  obtain ⟨a, b, c, d, e, hC⟩ := confusedStep_shape now s
  rw [hC]
  exact ⟨rfl, rfl, rfl⟩

/-- C7 counterexample: `setFramerate(0)` in `src/gifeye.py` computes
`1000 // 0` and raises `ZeroDivisionError` — the operation does not
complete as a total state transition. -/
theorem c7_counterexample : setFramerateGif 0 (initState 128 64) = none := by decide

/-- C7 (amended): not every public operation is total.  `setFramerate`
in `src/gifeye.py` succeeds exactly when `fps` is nonzero (the eye.py
variant is guarded by `max(1, fps)` and total); `setAutoblinker` and
`setIdleMode` succeed exactly when inactive or given a non-negative
variation (`randint(0, v)` has an empty range for negative `v`); and a
tick always succeeds provided both scheduled-animation variations are
non-negative and both travel-range getters are non-negative on the
tweened state (idle mode samples `randint(0, range)`, which raises on
a negative range — reachable, see the C6 counterexample). -/
theorem c7_totality (fps interval variation now rb : Int) (a : Bool)
    (r : Rands) (s : St) :
    ((setFramerateGif fps s).isSome ↔ fps ≠ 0) ∧
    ((setAutoblinker a interval variation now rb s).isSome ↔ (a = true → 0 ≤ variation)) ∧
    ((setIdleMode a interval variation now rb s).isSome ↔ (a = true → 0 ≤ variation)) ∧
    (0 ≤ s.blinkIntervalVariation → 0 ≤ s.idleIntervalVariation →
      0 ≤ getScreenConstraint_X (tweenStep s) → 0 ≤ getScreenConstraint_Y s →
      (tick now r s).isSome = true) := by
  refine ⟨?_, ?_, ?_, ?_⟩
  · unfold setFramerateGif
    split <;> simp_all
  · unfold setAutoblinker randintM
    split
    · split <;> simp_all
    · simp_all
  · unfold setIdleMode randintM
    split
    · split <;> simp_all
    · simp_all
  · intro hbv hiv hcx hcy
    obtain ⟨s1, h1⟩ := autoblinkStep_total now r.rBlink (tweenStep s) hbv
    obtain ⟨ha1, hb1, hc1, hd1, he1, hS1⟩ :=
      autoblinkStep_shape now r.rBlink (tweenStep s) s1 h1
    have hx1 : getScreenConstraint_X s1 = getScreenConstraint_X (tweenStep s) := by
      rw [hS1]
      rfl
    have hy1 : getScreenConstraint_Y s1 = getScreenConstraint_Y (tweenStep s) := by
      rw [hS1]
      rfl
    have hv1 : s1.idleIntervalVariation = s.idleIntervalVariation := by
      rw [hS1]
      rfl
    have hLs := laughStep_sched now s1
    have hCs := confusedStep_sched now (laughStep now s1)
    obtain ⟨s2, h2⟩ := idleStep_total now r.rIdleX r.rIdleY r.rIdleT
      (confusedStep now (laughStep now s1))
      (by rw [hCs.1, hLs.1, hx1]; exact hcx)
      (by rw [hCs.2.1, hLs.2.1, hy1]; exact hcy)
      (by rw [hCs.2.2, hLs.2.2, hv1]; exact hiv)
    unfold tick
    rw [h1]
    dsimp only
    rw [h2]
    rfl

/-- Witness for the amended C7 on the fresh animator: a valid
framerate, activating either scheduler with its default non-negative
variation, and a tick all succeed. -/
theorem c7_totality_witness :
    (setFramerateGif 50 (initState 128 64)).isSome ∧
    (setAutoblinker true 1 4 0 0 (initState 128 64)).isSome ∧
    (setIdleMode true 1 3 0 0 (initState 128 64)).isSome ∧
    (tick 0 ⟨0, 0, 0, 0⟩ (initState 128 64)).isSome = true :=
  ⟨(c7_totality 50 1 4 0 0 true ⟨0, 0, 0, 0⟩ (initState 128 64)).1.mpr (by decide),
   (c7_totality 50 1 4 0 0 true ⟨0, 0, 0, 0⟩ (initState 128 64)).2.1.mpr (by decide),
   (c7_totality 50 1 3 0 0 true ⟨0, 0, 0, 0⟩ (initState 128 64)).2.2.1.mpr (by decide),
   (c7_totality 50 1 4 0 0 true ⟨0, 0, 0, 0⟩ (initState 128 64)).2.2.2
     (by decide) (by decide) (by decide) (by decide)⟩
